import Mathlib

set_option autoImplicit false

/-!
Shallow embedding of the workflow-orchestration logic of `pysar/pysarApp.py`:
the stage catalog and start/end/dostep range selection (`cmd_line_parse`),
the template value normalization and custom-template processing
(`TimeSeriesAnalysis._read_template`), the default-template reconciliation
(`TimeSeriesAnalysis.startup`), the staleness decision (`ut.run_or_skip`),
the auxiliary-file copy helper (`TimeSeriesAnalysis._copy_aux_file`) and the
stage dispatch sequence (`TimeSeriesAnalysis.run`).
-/

namespace PysarApp

/-- `STEP_LIST`: the fixed ordered catalog of processing stages. -/
def STEP_LIST : List String :=
  ["loadData", "refPoint", "stacking", "unwCor", "netModify",
   "netInversion", "tropo", "deramp", "topo", "residRms",
   "refDate", "ts2vel", "geocode", "googleEarth", "hdfEos5"]

/-- Python `repr` of a string: wrapped in single quotes (`\x27`). -/
def pyQuote (s : String) : String := "\x27" ++ s ++ "\x27"

/-- Python `str` of a list of strings, as produced by `'{}'.format(STEP_LIST)`. -/
def pyStrList (l : List String) : String :=
  "[" ++ String.intercalate ", " (l.map pyQuote) ++ "]"

/-- The `ValueError` message built in `cmd_line_parse` for an input step that
is not in `STEP_LIST` (lines 114-115). -/
def unknownStepMsg (v : String) : String :=
  "Input step not found: " ++ v ++ "\nAvailable steps: " ++ pyStrList STEP_LIST

/-- One iteration of the validation loop of `cmd_line_parse` (lines 111-116):
a truthy (non-empty) value that is not in `STEP_LIST` raises `ValueError`. -/
def checkStepValue (v : String) : Except String Unit :=
  if v ≠ "" ∧ v ∉ STEP_LIST then Except.error (unknownStepMsg v) else Except.ok ()

/-- Python `list.index`: position of the first occurrence, `ValueError` if absent. -/
def pyIndex (l : List String) (v : String) : Except String Nat :=
  match l.findIdx? (fun x => x = v) with
  | some i => Except.ok i
  | none => Except.error (pyQuote v ++ " is not in list")

/-- The steps logic of `cmd_line_parse` (lines 110-127): validate
`startStep`, `endStep`, `doStep` in that order against `STEP_LIST`; if
`doStep` is truthy it overrides both `startStep` and `endStep`; the run list
is the Python slice `STEP_LIST[idx0:idx1]`.  `doStep = none` models the
absent `--dostep` option. -/
def selectSteps (startStep endStep : String) (doStep : Option String) :
    Except String (List String) := do
  let _ ← checkStepValue startStep
  let _ ← checkStepValue endStep
  let _ ← checkStepValue (doStep.getD "")
  let doS := doStep.getD ""
  let s := if doS ≠ "" then doS else startStep
  let e := if doS ≠ "" then doS else endStep
  let idx0 ← pyIndex STEP_LIST s
  let idx1 ← pyIndex STEP_LIST e
  return (STEP_LIST.drop idx0).take (idx1 - idx0)

theorem except_bind_error {ε α β : Type} (m : ε) (f : α → Except ε β) :
    (Except.error m : Except ε α) >>= f = Except.error m := rfl

theorem except_bind_ok {ε α β : Type} (a : α) (f : α → Except ε β) :
    (Except.ok a : Except ε α) >>= f = f a := rfl

theorem checkStepValue_ok {v : String} (h : v = "" ∨ v ∈ STEP_LIST) :
    checkStepValue v = Except.ok () := by
  unfold checkStepValue
  rw [if_neg]
  rintro ⟨h1, h2⟩
  rcases h with h | h
  · exact h1 h
  · exact h2 h

theorem checkStepValue_error {v : String} (h1 : v ≠ "") (h2 : v ∉ STEP_LIST) :
    checkStepValue v = Except.error (unknownStepMsg v) := by
  unfold checkStepValue
  exact if_pos ⟨h1, h2⟩

/-- C1: with `--dostep tropo` (a valid stage name) and the default
start/end values, the code sets `startStep = endStep = "tropo"` and then
computes the Python slice `STEP_LIST[idx:idx]`, which is the EMPTY list —
not the one-element list `["tropo"]` that the claim (and the code's own
`--dostep` help text) promises. -/
theorem selectSteps_doStep_empty :
    selectSteps "loadData" "hdfEos5" (some "tropo") = Except.ok [] := rfl

/-- C2: with `--start netModify --end topo` (both valid, catalog indices 4
and 8) and no `--dostep`, the code computes the half-open Python slice
`STEP_LIST[4:8]`, which contains the start stage but EXCLUDES the end stage
`"topo"` — not the closed-closed slice the claim states. -/
theorem selectSteps_range_halfOpen :
    selectSteps "netModify" "topo" none =
      Except.ok ["netModify", "netInversion", "tropo", "deramp"] := rfl

/-- C3: any non-empty selector value that is not in `STEP_LIST` makes range
selection fail with a `ValueError` whose message names the invalid value and
lists the valid catalog entries; the three selectors are validated in order
(`startStep`, `endStep`, `doStep`) before the `doStep` override is applied,
so an invalid `startStep` fails even alongside a valid `doStep`. -/
theorem selectSteps_unknown_step :
    (∀ v, unknownStepMsg v =
      "Input step not found: " ++ v ++ "\nAvailable steps: " ++ pyStrList STEP_LIST) ∧
    (∀ s e d, s ≠ "" → s ∉ STEP_LIST →
      selectSteps s e d = Except.error (unknownStepMsg s)) ∧
    (∀ s e d, (s = "" ∨ s ∈ STEP_LIST) → e ≠ "" → e ∉ STEP_LIST →
      selectSteps s e d = Except.error (unknownStepMsg e)) ∧
    (∀ s e dv, (s = "" ∨ s ∈ STEP_LIST) → (e = "" ∨ e ∈ STEP_LIST) →
      dv ≠ "" → dv ∉ STEP_LIST →
      selectSteps s e (some dv) = Except.error (unknownStepMsg dv)) := by
  refine ⟨fun _ => rfl, ?_, ?_, ?_⟩
  · intro s e d hs hn
    unfold selectSteps
    rw [checkStepValue_error hs hn]
    rfl
  · intro s e d hs he hne
    unfold selectSteps
    rw [checkStepValue_ok hs, except_bind_ok, checkStepValue_error he hne]
    rfl
  · intro s e dv hs he h1 h2
    unfold selectSteps
    rw [checkStepValue_ok hs, except_bind_ok, checkStepValue_ok he, except_bind_ok,
      show (some dv).getD "" = dv from rfl, checkStepValue_error h1 h2]
    rfl

/-- Witness for C3 at the spec's own example: start step `"bogus"` is
rejected with a message naming it, even though the supplied `doStep` is a
valid stage. -/
theorem selectSteps_unknown_step_witness :
    selectSteps "bogus" "hdfEos5" (some "tropo") =
      Except.error (unknownStepMsg "bogus") :=
  selectSteps_unknown_step.2.1 "bogus" "hdfEos5" (some "tropo")
    (by decide) (by decide)

/-! Configuration model: a template dict read by `readfile.read_template` is
a mapping from dotted option keys to string values, embedded as an
association list. -/

abbrev Config := List (String × String)

/-- Python `dict.keys()`. -/
def keys (d : Config) : List String := d.map Prod.fst

/-- Python `dict[k]` / `k in dict`: value of the first entry with key `k`. -/
def cfgLookup (k : String) : Config → Option String
  | [] => none
  | kv :: rest => if k = kv.1 then some kv.2 else cfgLookup k rest

/-- `standardValues` of `_read_template` (lines 228-231): the loose-type
alias table. -/
def standardValues : Config :=
  [("def", "auto"), ("default", "auto"),
   ("y", "yes"), ("on", "yes"), ("true", "yes"),
   ("n", "no"), ("off", "no"), ("false", "no")]

/-- `if value in standardValues.keys(): cdict[key] = standardValues[value]`
applied to one value (lines 232-234). -/
def standardizeValue (v : String) : String :=
  (cfgLookup v standardValues).getD v

/-- The value-aliasing pass of `_read_template` over the whole custom dict. -/
def applyStandardValues (d : Config) : Config :=
  d.map (fun kv => (kv.1, standardizeValue kv.2))

/-- `value.lower().replace('-', '_')` (line 238). -/
def lowerReplace (v : String) : String :=
  v.toLower.map (fun c => if c = '-' then '_' else c)

/-- The pass of `_read_template` lines 236-238: lower-case and de-hyphenate
the values of the two method keys. -/
def lowerReplaceKeys (d : Config) : Config :=
  d.map (fun kv =>
    if kv.1 = "pysar.deramp" ∨ kv.1 = "pysar.troposphericDelay.method"
    then (kv.1, lowerReplace kv.2) else kv)

/-- Python dict assignment `d[k] = v`: update in place if the key exists,
append otherwise. -/
def dictSet (d : Config) (k v : String) : Config :=
  if (keys d).contains k then
    d.map (fun kv => if kv.1 = k then (k, v) else kv)
  else d ++ [(k, v)]

/-- The legacy-key forwarding of `_read_template` lines 240-241:
`cdict['pysar.load.processor'] = cdict['processor']` when present. -/
def forwardProcessor (d : Config) : Config :=
  match cfgLookup "processor" d with
  | some v => dictSet d "pysar.load.processor" v
  | none => d

/-- The deny-list pop of `_read_template` lines 246-248: drop the two
subset-offset keys from the custom dict. -/
def dropSubsetKeys (d : Config) : Config :=
  d.filter (fun kv => !(kv.1 == "SUBSET_XMIN" || kv.1 == "SUBSET_YMIN"))

/-- The whole custom-dict transformation of `_read_template` (lines
227-250), in source order: value aliasing, method-key lower-casing,
processor forwarding, subset-key removal; the result becomes
`self.customTemplate` and is merged into the default template. -/
def processCustom (d : Config) : Config :=
  dropSubsetKeys (forwardProcessor (lowerReplaceKeys (applyStandardValues d)))

theorem cfgLookup_applyStandardValues (d : Config) (k : String) :
    cfgLookup k (applyStandardValues d) = (cfgLookup k d).map standardizeValue := by
  induction d with
  | nil => rfl
  | cons kv rest ih =>
    simp only [applyStandardValues, List.map_cons, cfgLookup]
    split
    · rfl
    · exact ih

theorem standardizeValue_eq_alias (v : String) :
    standardizeValue v =
      (if v = "def" ∨ v = "default" then "auto"
       else if v = "y" ∨ v = "on" ∨ v = "true" then "yes"
       else if v = "n" ∨ v = "off" ∨ v = "false" then "no"
       else v) := by
  by_cases h1 : v = "def"
  · subst h1; rfl
  by_cases h2 : v = "default"
  · subst h2; rfl
  by_cases h3 : v = "y"
  · subst h3; rfl
  by_cases h4 : v = "on"
  · subst h4; rfl
  by_cases h5 : v = "true"
  · subst h5; rfl
  by_cases h6 : v = "n"
  · subst h6; rfl
  by_cases h7 : v = "off"
  · subst h7; rfl
  by_cases h8 : v = "false"
  · subst h8; rfl
  simp only [standardizeValue, standardValues, cfgLookup,
    if_neg h1, if_neg h2, if_neg h3, if_neg h4, if_neg h5, if_neg h6,
    if_neg h7, if_neg h8, Option.getD_none]
  simp [h1, h2, h3, h4, h5, h6, h7, h8]

/-- C4: the value-aliasing pass keeps every key and maps each value by
case-sensitive exact-token match: `def`/`default` to `auto`, `y`/`on`/`true`
to `yes`, `n`/`off`/`false` to `no`, and leaves every other value (for
example the upper-case `"Y"`) unchanged. -/
theorem standardValues_mapping :
    ∀ (d : Config), keys (applyStandardValues d) = keys d ∧
      ∀ k v, cfgLookup k d = some v →
        cfgLookup k (applyStandardValues d) = some
          (if v = "def" ∨ v = "default" then "auto"
           else if v = "y" ∨ v = "on" ∨ v = "true" then "yes"
           else if v = "n" ∨ v = "off" ∨ v = "false" then "no"
           else v) := by
  intro d
  constructor
  · simp [keys, applyStandardValues]
  · intro k v h
    rw [cfgLookup_applyStandardValues, h]
    show some (standardizeValue v) = _
    rw [standardizeValue_eq_alias]

/-- Witness for C4 at the spec's own example `{"a": "def", "b": "Y"}`:
`"def"` becomes `"auto"` and the upper-case `"Y"` is left unchanged. -/
theorem standardValues_mapping_witness :
    cfgLookup "a" (applyStandardValues [("a", "def"), ("b", "Y")]) = some "auto" ∧
    cfgLookup "b" (applyStandardValues [("a", "def"), ("b", "Y")]) = some "Y" := by
  have h1 := (standardValues_mapping [("a", "def"), ("b", "Y")]).2 "a" "def" rfl
  have h2 := (standardValues_mapping [("a", "def"), ("b", "Y")]).2 "b" "Y" rfl
  refine ⟨?_, ?_⟩
  · simpa using h1
  · simpa using h2

theorem cfgLookup_dropSubsetKeys_denied (d : Config) (k : String)
    (h : k = "SUBSET_XMIN" ∨ k = "SUBSET_YMIN") :
    cfgLookup k (dropSubsetKeys d) = none := by
  induction d with
  | nil => rfl
  | cons kv rest ih =>
    unfold dropSubsetKeys at ih ⊢
    rw [List.filter_cons]
    split
    · rename_i hcond
      rw [cfgLookup, if_neg]
      · exact ih
      · intro hk
        rw [hk] at h
        rcases h with h | h <;> simp [h] at hcond
    · exact ih

theorem cfgLookup_dropSubsetKeys_of_ne (d : Config) (k : String)
    (h1 : k ≠ "SUBSET_XMIN") (h2 : k ≠ "SUBSET_YMIN") :
    cfgLookup k (dropSubsetKeys d) = cfgLookup k d := by
  induction d with
  | nil => rfl
  | cons kv rest ih =>
    unfold dropSubsetKeys at ih ⊢
    rw [List.filter_cons]
    split
    · rw [cfgLookup, cfgLookup]
      split
      · rfl
      · exact ih
    · rename_i hcond
      have hkv : kv.1 = "SUBSET_XMIN" ∨ kv.1 = "SUBSET_YMIN" := by
        by_contra hc
        push_neg at hc
        simp [hc.1, hc.2] at hcond
      rw [cfgLookup, if_neg]
      · exact ih
      · intro hk
        rw [hk] at h1 h2
        rcases hkv with h | h
        · exact h1 h
        · exact h2 h

/-- C5: the custom-dict processing removes the two subset-offset keys
`SUBSET_XMIN` and `SUBSET_YMIN` whenever present, so they never reach the
merge into the default template, while every other key of the custom dict
keeps exactly the value it had before the drop step. -/
theorem subset_keys_dropped :
    ∀ (d : Config),
      cfgLookup "SUBSET_XMIN" (processCustom d) = none ∧
      cfgLookup "SUBSET_YMIN" (processCustom d) = none ∧
      ∀ k, k ≠ "SUBSET_XMIN" → k ≠ "SUBSET_YMIN" →
        cfgLookup k (processCustom d) =
          cfgLookup k (forwardProcessor (lowerReplaceKeys (applyStandardValues d))) :=
  fun _d =>
    ⟨cfgLookup_dropSubsetKeys_denied _ _ (Or.inl rfl),
     cfgLookup_dropSubsetKeys_denied _ _ (Or.inr rfl),
     fun _ h1 h2 => cfgLookup_dropSubsetKeys_of_ne _ _ h1 h2⟩

/-- Witness for C5: on a custom dict holding `SUBSET_XMIN` and one ordinary
key, the ordinary key keeps its pre-drop value while `SUBSET_XMIN` is gone. -/
theorem subset_keys_dropped_witness :
    cfgLookup "pysar.load.autoPath"
        (processCustom [("SUBSET_XMIN", "100"), ("pysar.load.autoPath", "yes")]) =
      cfgLookup "pysar.load.autoPath"
        (forwardProcessor (lowerReplaceKeys (applyStandardValues
          [("SUBSET_XMIN", "100"), ("pysar.load.autoPath", "yes")]))) ∧
    cfgLookup "SUBSET_XMIN"
        (processCustom [("SUBSET_XMIN", "100"), ("pysar.load.autoPath", "yes")]) = none :=
  ⟨(subset_keys_dropped _).2.2 "pysar.load.autoPath" (by decide) (by decide),
   (subset_keys_dropped [("SUBSET_XMIN", "100"), ("pysar.load.autoPath", "yes")]).1⟩

/-! Default-template reconciliation (`startup`, lines 184-201). -/

/-- The obsolescence test of `startup` line 194:
`any([key not in cdict.keys() for key in ldict.keys()])`. -/
def needsUpgrade (ldict cdict : Config) : Bool :=
  (keys ldict).any (fun key => !((keys cdict).contains key))

/-- Modelled from the spec: `ut.update_template_file` (in
`pysar/utils/utils.py`, which is not under src/), as called in `startup`
line 198 on the freshly copied shipped default file and the obsolete
on-disk dict — the result keeps the shipped default's keys, taking the
on-disk value for every key that still exists in the shipped default. -/
def update_template_file (shipped onDisk : Config) : Config :=
  shipped.map (fun kv =>
    match cfgLookup kv.1 onDisk with
    | some v => (kv.1, v)
    | none => kv)

/-- The reconciliation of `startup` lines 187-201 in the case where the
on-disk copy exists: upgrade iff some shipped-default key is missing from
the on-disk copy; on upgrade the shipped default replaces the file and the
surviving on-disk values are reapplied, otherwise the on-disk copy stands. -/
def reconcile (onDisk shipped : Config) : Bool × Config :=
  if needsUpgrade shipped onDisk then (true, update_template_file shipped onDisk)
  else (false, onDisk)

theorem needsUpgrade_iff (shipped onDisk : Config) :
    needsUpgrade shipped onDisk = true ↔ ∃ k ∈ keys shipped, k ∉ keys onDisk := by
  unfold needsUpgrade
  rw [List.any_eq_true]
  constructor
  · rintro ⟨k, hk, hp⟩
    exact ⟨k, hk, by simpa using hp⟩
  · rintro ⟨k, hk, hp⟩
    exact ⟨k, hk, by simpa using hp⟩

theorem cfgLookup_update_template_file (shipped onDisk : Config) (k : String)
    (hk : k ∈ keys shipped) (v : String) (hv : cfgLookup k onDisk = some v) :
    cfgLookup k (update_template_file shipped onDisk) = some v := by
  induction shipped with
  | nil => simp [keys] at hk
  | cons kv rest ih =>
    unfold update_template_file at ih ⊢
    rw [List.map_cons]
    by_cases hkk : k = kv.1
    · have hlk : cfgLookup kv.1 onDisk = some v := by rw [← hkk]; exact hv
      rw [hlk]
      simp [cfgLookup, hkk]
    · have hk2 : k ∈ keys rest := by
        rcases List.mem_cons.mp hk with h | h
        · exact absurd h hkk
        · exact h
      cases hmatch : cfgLookup kv.1 onDisk with
      | some w =>
        simp only [cfgLookup, if_neg hkk]
        exact ih hk2
      | none =>
        simp only [cfgLookup, if_neg hkk]
        exact ih hk2

/-- C6: reconciliation reports an upgrade exactly when some key of the
shipped default is absent from the on-disk copy, and on upgrade every
on-disk value whose key survives in the shipped default is preserved. -/
theorem reconcile_spec :
    ∀ (onDisk shipped : Config),
      ((reconcile onDisk shipped).1 = true ↔ ∃ k ∈ keys shipped, k ∉ keys onDisk) ∧
      ((reconcile onDisk shipped).1 = true →
        ∀ k, k ∈ keys shipped → ∀ v, cfgLookup k onDisk = some v →
          cfgLookup k (reconcile onDisk shipped).2 = some v) := by
  intro onDisk shipped
  by_cases h : needsUpgrade shipped onDisk = true
  · have hrec : reconcile onDisk shipped = (true, update_template_file shipped onDisk) := by
      unfold reconcile
      rw [if_pos h]
    rw [hrec]
    refine ⟨⟨fun _ => (needsUpgrade_iff _ _).mp h, fun _ => rfl⟩, ?_⟩
    intro _ k hk v hv
    exact cfgLookup_update_template_file shipped onDisk k hk v hv
  · have hrec : reconcile onDisk shipped = (false, onDisk) := by
      unfold reconcile
      rw [if_neg h]
    rw [hrec]
    refine ⟨⟨fun hfalse => absurd hfalse (by simp), ?_⟩, fun hfalse => absurd hfalse (by simp)⟩
    intro hex
    exact absurd ((needsUpgrade_iff _ _).mpr hex) h

/-- Witness for C6: shipped default `{a: 1, b: 2}` against on-disk `{a: 9}`
needs an upgrade (`b` is missing on disk) and the surviving on-disk value
of `a` is preserved in the upgraded result. -/
theorem reconcile_spec_witness :
    (reconcile [("a", "9")] [("a", "1"), ("b", "2")]).1 = true ∧
    cfgLookup "a" (reconcile [("a", "9")] [("a", "1"), ("b", "2")]).2 = some "9" :=
  ⟨((reconcile_spec [("a", "9")] [("a", "1"), ("b", "2")]).1).mpr
      ⟨"b", by decide, by decide⟩,
   (reconcile_spec [("a", "9")] [("a", "1"), ("b", "2")]).2 (by decide) "a"
      (by decide) "9" (by decide)⟩

/-! Staleness decision. -/

/-- A file-system artifact as the staleness decision sees it: a
modification time and a readability flag; a missing artifact is `none`. -/
structure Artifact where
  mtime : Int
  readable : Bool
deriving DecidableEq

/-- Modelled from the spec: `ut.run_or_skip` (in `pysar/utils/utils.py`,
which is not under src/), the staleness oracle called at `_read_template`
lines 217-219 and `_copy_aux_file` lines 305-307 — `"run"` when the output
is missing, or (when required) unreadable, or some existing input is
strictly newer than the output; `"skip"` otherwise. -/
def run_or_skip (outFile : Option Artifact) (inFiles : List (Option Artifact))
    (checkReadable : Bool) : String :=
  match outFile with
  | none => "run"
  | some o =>
    if checkReadable && !o.readable then "run"
    else if inFiles.any (fun i =>
        match i with
        | some a => decide (o.mtime < a.mtime)
        | none => false) then "run"
    else "skip"

/-- C8: the staleness decision is a pure function that returns `"run"`
whenever the output artifact is missing (whatever the inputs), `"skip"`
whenever the output exists (and is readable when readability is required)
and no existing input is strictly newer than it, and in particular `"skip"`
for an empty input list with an existing, readable output. -/
theorem run_or_skip_spec :
    (∀ inFiles checkReadable, run_or_skip none inFiles checkReadable = "run") ∧
    (∀ (o : Artifact) inFiles checkReadable,
      (checkReadable = true → o.readable = true) →
      (∀ a : Artifact, some a ∈ inFiles → ¬ o.mtime < a.mtime) →
      run_or_skip (some o) inFiles checkReadable = "skip") ∧
    (∀ (o : Artifact) checkReadable, (checkReadable = true → o.readable = true) →
      run_or_skip (some o) [] checkReadable = "skip") := by
  have hskip : ∀ (o : Artifact) inFiles checkReadable,
      (checkReadable = true → o.readable = true) →
      (∀ a : Artifact, some a ∈ inFiles → ¬ o.mtime < a.mtime) →
      run_or_skip (some o) inFiles checkReadable = "skip" := by
    intro o inFiles checkReadable hr hnew
    have hc : (checkReadable && !o.readable) = false := by
      cases checkReadable with
      | false => rfl
      | true => rw [hr rfl]; rfl
    have hany : (inFiles.any (fun i =>
        match i with
        | some a => decide (o.mtime < a.mtime)
        | none => false)) = false := by
      rw [List.any_eq_false]
      intro i hi
      cases i with
      | none => simp
      | some a => simpa using hnew a hi
    unfold run_or_skip
    dsimp only
    rw [hc, hany]
    rfl
  exact ⟨fun _ _ => rfl, hskip,
    fun o checkReadable hr => hskip o [] checkReadable hr (by simp)⟩

/-- Witness for C8 at the spec's own examples: output at t=10 with a single
input at t=5 is skipped. -/
theorem run_or_skip_spec_witness :
    run_or_skip (some ⟨10, true⟩) [some ⟨5, true⟩] true = "skip" :=
  run_or_skip_spec.2.1 ⟨10, true⟩ [some ⟨5, true⟩] true (fun _ => rfl)
    (by
      intro a ha
      have h := Option.some.inj (List.mem_singleton.mp ha)
      subst h
      decide)

/-! Auxiliary-file copy helper (`_copy_aux_file`, lines 293-312). -/

/-- The environment `_copy_aux_file` runs in: each fallible operation of
the `try` block is an oracle that may raise.  `scratchDir = none` models
`os.getenv('SCRATCHDIR')` returning `None` (making `os.path.join` raise),
`fileListResult` models `get_file_list` (including the `NameError` on its
unprefixed name), `skipDecision` models the `run_or_skip` call and
`copyResult` models `shutil.copy2`. -/
structure AuxEnv where
  scratchDir : Option String
  fileListResult : Except String (List String)
  skipDecision : String → Except String String
  copyResult : String → Except String Unit

/-- The body of the `try` block of `_copy_aux_file` (lines 302-309): build
the project directory, list the candidate auxiliary files, and copy each
one whose backup is stale; returns the copied files. -/
def copyAuxBody (projectName : String) (env : AuxEnv) : Except String (List String) := do
  let sdir ← match env.scratchDir with
    | some s => Except.ok s
    | none => Except.error "TypeError: join() argument must be str, not NoneType"
  let _ := sdir ++ "/" ++ projectName
  let flist ← env.fileListResult
  flist.foldlM (fun acc fname => do
    let dec ← env.skipDecision fname
    if dec = "run" then
      match env.copyResult fname with
      | Except.ok _ => Except.ok (acc ++ [fname])
      | Except.error e => Except.error e
    else Except.ok acc) []

/-- `_copy_aux_file` itself: returns immediately when no project name is
set; otherwise runs the body under `try Y except: pass`, so every failure is
swallowed and the helper returns normally. -/
def copyAuxFile (projectName : Option String) (env : AuxEnv) :
    Except String (List String) :=
  match projectName with
  | none => Except.ok []
  | some pn =>
    match copyAuxBody pn env with
    | Except.ok l => Except.ok l
    | Except.error _ => Except.ok []

/-- C9: for every project name and every environment — including ones where
locating or copying the auxiliary files raises — the copy helper returns
normally (never an error); and there is an environment whose body does
raise, yet the helper still returns normally. -/
theorem copy_aux_swallows_failures :
    (∀ (projectName : Option String) (env : AuxEnv),
      ∃ l, copyAuxFile projectName env = Except.ok l) ∧
    (∃ (pn : String) (env : AuxEnv) (m : String),
      copyAuxBody pn env = Except.error m ∧
      copyAuxFile (some pn) env = Except.ok []) := by
  constructor
  · intro projectName env
    cases projectName with
    | none => exact ⟨[], rfl⟩
    | some pn =>
      cases h : copyAuxBody pn env with
      | ok l => exact ⟨l, by simp [copyAuxFile, h]⟩
      | error e => exact ⟨[], by simp [copyAuxFile, h]⟩
  · refine ⟨"PROJ",
      ⟨none, Except.ok [], fun _ => Except.ok "run", fun _ => Except.ok ()⟩,
      "TypeError: join() argument must be str, not NoneType", rfl, rfl⟩

/-! Stage dispatch (`runLoadData`, `runRefPoint`, `run`, lines 270-332). -/

/-- The inputs `TimeSeriesAnalysis.run` depends on: whether the loadData
stage is enabled, the exit status its external `load_data.py` process will
report, and the strings the command line is built from. -/
structure StageEnv where
  doLoadData : Bool
  loadExit : Int
  templateFile : String
  customTemplateFile : Option String
  projectName : Option String

/-- The command string built in `runLoadData` (lines 281-285). -/
def loadDataCmd (env : StageEnv) : String :=
  let cmd := "load_data.py --template " ++ env.templateFile
  let cmd := match env.customTemplateFile with
    | some f => cmd ++ " " ++ f
    | none => cmd
  match env.projectName with
  | some p => cmd ++ " --project " ++ p
  | none => cmd

/-- `runLoadData` (lines 270-290): skipped stages report status 0 and no
command; a dispatched stage reports its external process's exit status. -/
def runLoadData (env : StageEnv) : Int × Option String :=
  if env.doLoadData = false then (0, none)
  else (env.loadExit, some (loadDataCmd env))

/-- One method call made by `run` (lines 319-332), with what it observed. -/
inductive Dispatch where
  | loadData (status : Int) (cmd : Option String)
  | refPoint
  | plot
deriving DecidableEq

/-- `run` (lines 319-332): it calls `runLoadData`, then unconditionally
`runRefPoint`, then `plot` — the exit status returned by `runLoadData` is
discarded and nothing is surfaced. -/
def runWorkflow (env : StageEnv) : List Dispatch :=
  let r := runLoadData env
  [Dispatch.loadData r.1 r.2, Dispatch.refPoint, Dispatch.plot]

/-- C7: evaluating `run` in an environment where the dispatched loadData
stage's external process reports exit status 2 shows that the later
refPoint stage (and the plot step) are still dispatched, and no
workflow-level failure is surfaced — the claimed fail-fast stop does not
exist in the code. -/
theorem run_continues_after_failure :
    runWorkflow ⟨true, 2, "pysarApp_template.txt", none, none⟩ =
      [Dispatch.loadData 2 (some "load_data.py --template pysarApp_template.txt"),
       Dispatch.refPoint, Dispatch.plot] := rfl

/-! Custom-template discard for the shipped default's filename
(`cmd_line_parse` lines 104-107, `startup` lines 154-158,
`_read_template` lines 212-213). -/

/-- `os.path.basename` on a POSIX path: the characters after the last
slash. -/
def basename (p : String) : String :=
  (p.toList.foldl (fun acc c => if c = '/' then [] else acc ++ [c]) []).asString

/-- The stem of `os.path.splitext`: everything before the last extension
separator, where a dot with only dots before it (as in `.bashrc`) does not
start an extension. -/
def splitextStem (b : String) : String :=
  let cs := b.toList
  let seps := (List.range cs.length).filter (fun i =>
    cs.getD i ' ' == '.' && (List.range i).any (fun j => cs.getD j ' ' != '.'))
  match seps.getLast? with
  | some i => (cs.take i).asString
  | none => b

/-- `cmd_line_parse` lines 104-107: a truthy custom-template path whose
base filename is `pysarApp_template.txt` is discarded. -/
def ignoreDefaultTemplate (customTemplateFile : Option String) : Option String :=
  match customTemplateFile with
  | some p => if p ≠ "" ∧ basename p = "pysarApp_template.txt" then none else some p
  | none => none

/-- `startup` lines 154-158: the project name is derived from the custom
template's base filename only when a custom template is set. -/
def projectNameOf (customTemplateFile : Option String) : Option String :=
  match customTemplateFile with
  | some p => if p ≠ "" then some (splitextStem (basename p)) else none
  | none => none

/-- `_read_template` lines 212-254: `self.customTemplate` stays `None`
(and no custom overrides are read or merged) unless a custom template file
is set, in which case it is the processed custom dict. -/
def customTemplateOf (customTemplateFile : Option String) (cdict : Config) :
    Option Config :=
  match customTemplateFile with
  | some p => if p ≠ "" then some (processCustom cdict) else none
  | none => none

/-- C10: a positional custom-template path whose base filename is
`pysarApp_template.txt` is silently discarded by the parser, after which no
project name is derived and no custom overrides are applied — exactly as if
no custom template had been supplied. -/
theorem default_template_input_ignored :
    ∀ p : String, basename p = "pysarApp_template.txt" →
      ignoreDefaultTemplate (some p) = none ∧
      projectNameOf (ignoreDefaultTemplate (some p)) = none ∧
      ∀ cdict : Config, customTemplateOf (ignoreDefaultTemplate (some p)) cdict = none := by
  intro p h
  have hp : p ≠ "" := by
    intro he
    subst he
    exact absurd h (by decide)
  have hign : ignoreDefaultTemplate (some p) = none := by
    unfold ignoreDefaultTemplate
    dsimp only
    rw [if_pos ⟨hp, h⟩]
  refine ⟨hign, ?_, ?_⟩
  · rw [hign]
    rfl
  · intro cdict
    rw [hign]
    rfl

/-- Witness for C10: a path ending in the shipped default's filename is
discarded, so no project name and no custom overrides arise from it. -/
theorem default_template_input_ignored_witness :
    ignoreDefaultTemplate (some "dir/pysarApp_template.txt") = none ∧
    projectNameOf (ignoreDefaultTemplate (some "dir/pysarApp_template.txt")) = none :=
  ⟨(default_template_input_ignored "dir/pysarApp_template.txt" (by decide)).1,
   (default_template_input_ignored "dir/pysarApp_template.txt" (by decide)).2.1⟩

end PysarApp
